import Mathlib

/-!
Shallow embedding of the bot middleware core (Lur1an/base-bot):
`src/bot/common/wrappers.py`, `src/bot/common/conversation.py`,
`src/bot/errors.py`, `src/bot/application.py`.

Modelling conventions:
- A Python coroutine's outcome is `Except Exc Val`: `ok v` for a normal
  return (Python `None` is `Val.none`), `error e` for a raised exception.
- Outbound bot calls (`send_message`, `delete_message`, `answer`) are the
  suspension points; each appends an `Effect` to a trace when it succeeds
  and raises `Exc.botError` when it fails.  An `Env` record fixes, for one
  wrapper invocation, whether each kind of outbound call succeeds.
- A handler's behaviour at one invocation is a function from the update and
  context to `(outcome, trace of its own effects, updated context)`.
-/

/-- Exceptions raised during update processing.  `userNotRegistered` embeds
the `UserNotRegistered` class of `src/bot/errors.py`; `botError` stands for a
failure of an outbound telegram call; `other n` is any other exception. -/
inductive Exc where
  | userNotRegistered
  | botError
  | other (n : Nat)
deriving DecidableEq, Repr

/-- Python values returned by handlers: `none` is Python `None`, `intVal n`
an integer (python-telegram-bot's `ConversationHandler.END` is the integer
`-1`). -/
inductive Val where
  | none
  | intVal (n : Int)
deriving DecidableEq, Repr

/-- Observable side effects of one pipeline invocation: outbound telegram
calls and log records. -/
inductive Effect where
  | sendMessage (chat_id : Int) (text : String)
  | deleteMessage (chat_id : Int) (message_id : Int)
  | answerCallback
  | logError (e : Exc)
deriving DecidableEq, Repr

/-- Modelled from the spec: the process-wide store (`BotData` of
`src/bot/common/context.py`, a file the repository references but whose
source is not available).  Per the spec it holds the user-scoped cache
(`users`, a user-id-keyed map) among other process-wide content, which
`otherBotData` stands for. -/
structure BotData where
  users : List (Int × Nat)
  otherBotData : Nat
deriving DecidableEq, Repr

/-- Modelled from the spec: the chat-scoped store (`ChatData` of
`src/bot/common/context.py`).  Per the spec it holds the chat-scoped
conversation state slot `conversation_data` (used by
`exit_conversation_on_exception`) among other chat-scoped content. -/
structure ChatData where
  conversation_data : Option Nat
  otherChatData : Nat
deriving DecidableEq, Repr

/-- Modelled from the spec: the user-scoped store (`UserData` of
`src/bot/common/context.py`). -/
structure UserData where
  otherUserData : Nat
deriving DecidableEq, Repr

/-- Modelled from the spec: the per-update `ApplicationContext` of
`src/bot/common/context.py`: the three scoped stores plus the captured
error, when one occurred (`context.error`). -/
structure ApplicationContext where
  bot_data : BotData
  chat_data : ChatData
  user_data : UserData
  error : Option Exc
deriving DecidableEq, Repr

/-- One inbound update: the fields the core reads (`update.effective_user.id`,
`update.effective_chat.id`, `update.effective_message.id`,
`update.callback_query.data`, the last carried as an opaque payload). -/
structure Update where
  effective_user_id : Int
  effective_chat_id : Int
  effective_message_id : Int
  callback_query_data : Nat
deriving DecidableEq, Repr

/-- Environment of one wrapper invocation: whether each kind of outbound
telegram call succeeds when attempted. -/
structure Env where
  sendOk : Bool
  deleteOk : Bool
  answerOk : Bool
deriving DecidableEq, Repr

/-- Outcome of one handler invocation: the returned value or raised
exception, the trace of effects performed, and the context as left behind. -/
abbrev HandlerResult := Except Exc Val × List Effect × ApplicationContext

/-- A two-argument handler `(update, context)`, represented by its behaviour
at one invocation. -/
abbrev Handler := Update → ApplicationContext → HandlerResult

/-- A three-argument callback-query handler `(update, context, data)`. -/
abbrev CbHandler := Update → ApplicationContext → Nat → HandlerResult

namespace Bot

/-- Outbound call `context.bot.send_message(chat_id=..., text=...)`:
succeeds (producing one `sendMessage` effect) or raises. -/
def send_message (env : Env) (chat_id : Int) (text : String) :
    Except Exc (List Effect) :=
  if env.sendOk then .ok [.sendMessage chat_id text] else .error .botError

/-- Outbound call `context.bot.delete_message(message_id=..., chat_id=...)`. -/
def delete_message (env : Env) (chat_id : Int) (message_id : Int) :
    Except Exc (List Effect) :=
  if env.deleteOk then .ok [.deleteMessage chat_id message_id]
  else .error .botError

/-- Outbound call `update.callback_query.answer()`. -/
def answer (env : Env) : Except Exc (List Effect) :=
  if env.answerOk then .ok [.answerCallback] else .error .botError

end Bot

/-- The end-conversation marker `ConversationHandler.END` (the integer `-1`
in python-telegram-bot). -/
def ConversationHandlerEND : Val := .intVal (-1)

/-- Embedding of `admin_command` (`src/bot/common/wrappers.py` lines 14-24):
if the effective user's id is not in `admin_ids`, return `None` at once
(no handler call, no effects, context untouched); else run the wrapped
handler and return its result. -/
def admin_command (admin_ids : List Int) (f : Handler) : Handler :=
  fun update context =>
    if admin_ids.contains update.effective_user_id then f update context
    else (.ok .none, [], context)

/-- Embedding of `inject_callback_query` (`src/bot/common/wrappers.py`
lines 42-54): pass `update.callback_query.data` as third argument to the
wrapped handler; if the handler returns normally and `answer_query_after`
is set, answer the callback query, then return the handler's result.  A
handler exception propagates before the answer step is reached. -/
def inject_callback_query (answer_query_after : Bool) (f : CbHandler)
    (env : Env) : Handler :=
  fun update context =>
    let converted_data := update.callback_query_data
    match f update context converted_data with
    | (.error e, tr, context2) => (.error e, tr, context2)
    | (.ok result, tr, context2) =>
      if answer_query_after then
        match Bot.answer env with
        | .ok eff => (.ok result, tr ++ eff, context2)
        | .error e => (.error e, tr, context2)
      else (.ok result, tr, context2)

/-- Embedding of `delete_message_after` (`src/bot/common/wrappers.py`
lines 57-69): run the wrapped handler (an exception propagates at once),
then attempt the delete inside `try ... finally: return result`, so a
delete failure is discarded and the handler's result returned. -/
def delete_message_after (f : Handler) (env : Env) : Handler :=
  fun update context =>
    match f update context with
    | (.error e, tr, context2) => (.error e, tr, context2)
    | (.ok result, tr, context2) =>
      match Bot.delete_message env update.effective_chat_id
          update.effective_message_id with
      | .ok eff => (.ok result, tr ++ eff, context2)
      | .error _ => (.ok result, tr, context2)

/-- Default `user_message` of `exit_conversation_on_exception`. -/
def default_user_message : String :=
  "I'm sorry, something went wrong, try again or contact an Administrator."

/-- Embedding of `exit_conversation_on_exception`
(`src/bot/common/wrappers.py` lines 72-91): on a normal return, pass the
result through; on any handler exception, send the apology (a failure of
that send propagates, skipping the lines after the `except` block), then
set `context.chat_data.conversation_data = None` and return
`ConversationHandler.END`. -/
def exit_conversation_on_exception (user_message : String) (f : Handler)
    (env : Env) : Handler :=
  fun update context =>
    match f update context with
    | (.ok result, tr, context2) => (.ok result, tr, context2)
    | (.error _, tr, context2) =>
      match Bot.send_message env update.effective_chat_id user_message with
      | .error e2 => (.error e2, tr, context2)
      | .ok eff =>
        let context3 := { context2 with
          chat_data := { context2.chat_data with conversation_data := none } }
        (.ok ConversationHandlerEND, tr ++ eff, context3)

/-- Fixed text sent by `handle_error` for `UserNotRegistered`. -/
def registration_message : String :=
  "You are not registered. Please register first with /start"

/-- Embedding of `handle_error` (`src/bot/errors.py` lines 12-23): if
`context.error` is absent, return at once; if it is `UserNotRegistered`,
send the registration message (a failure of that send propagates); else
emit one structured log record. -/
def handle_error (env : Env) (update : Update)
    (context : ApplicationContext) : Except Exc Val × List Effect :=
  match context.error with
  | none => (.ok .none, [])
  | some e =>
    match e with
    | .userNotRegistered =>
      match Bot.send_message env update.effective_chat_id
          registration_message with
      | .ok eff => (.ok .none, eff)
      | .error e2 => (.error e2, [])
    | _ => (.ok .none, [.logError e])

/-- Embedding of `clear_cache` (`src/bot/application.py` lines 10-11):
`context.bot_data.users.clear()` empties the user cache in place; the
coroutine returns `None`. -/
def clear_cache (context : ApplicationContext) : ApplicationContext × Val :=
  ({ context with bot_data := { context.bot_data with users := [] } }, .none)

/-- Python `dict` assignment `d[k] = v` on an association list: replace the
value in place when the key is present, else append the new pair. -/
def dictInsert {α β : Type} [DecidableEq α] :
    List (α × β) → α → β → List (α × β)
  | [], k, v => [(k, v)]
  | (k1, v1) :: rest, k, v =>
    if k1 = k then (k, v) :: rest else (k1, v1) :: dictInsert rest k v

/-- Python `dict` lookup `d.get(k)` on an association list. -/
def dictGet {α β : Type} [DecidableEq α] :
    List (α × β) → α → Option β
  | [], _ => none
  | (k1, v1) :: rest, k => if k1 = k then some v1 else dictGet rest k

/-- Opaque comparable state identifiers of the conversation machine. -/
abbrev StateId := Nat

/-- Opaque handler values as stored by the builder. -/
abbrev HandlerRef := Nat

/-- Embedding of the `ConversationHandler` constructed by
`ConversationBuilder.build` (`src/bot/common/conversation.py` lines 32-44):
the record of keyword arguments passed to it. -/
structure ConversationHandlerSpec where
  entry_points : List HandlerRef
  states : List (StateId × HandlerRef)
  fallbacks : List HandlerRef
  per_user : Bool
  per_chat : Bool
  per_message : Bool
  allow_reentry : Bool
  name : Option String
  persistent : Bool
  map_to_parent : Option (List (StateId × StateId))
deriving DecidableEq, Repr

/-- Embedding of the `ConversationBuilder` dataclass
(`src/bot/common/conversation.py` lines 8-19) with its field defaults. -/
structure ConversationBuilder where
  per_user : Bool := true
  per_chat : Bool := true
  per_message : Bool := false
  allow_reentry : Bool := false
  name : Option String := none
  persistent : Bool := false
  map_to_parent : Option (List (StateId × StateId)) := none
  states : List (StateId × HandlerRef) := []
  fallbacks : List HandlerRef := []
  entry_points : List HandlerRef := []
deriving DecidableEq, Repr

/-- Embedding of `ConversationBuilder.add_state`
(`src/bot/common/conversation.py` lines 21-24): the returned decorator
stores `self.states[state] = handler` and falls off its end, so its Python
return value is `None` — modelled as the `Option HandlerRef` second
component, always `none`. -/
def ConversationBuilder.add_state (b : ConversationBuilder) (state : StateId)
    (handler : HandlerRef) : ConversationBuilder × Option HandlerRef :=
  ({ b with states := dictInsert b.states state handler }, none)

/-- Embedding of `ConversationBuilder.add_entry_point` (lines 26-27):
appends the handler; the method body has no return statement, so it
returns `None`. -/
def ConversationBuilder.add_entry_point (b : ConversationBuilder)
    (handler : HandlerRef) : ConversationBuilder × Option HandlerRef :=
  ({ b with entry_points := b.entry_points ++ [handler] }, none)

/-- Embedding of `ConversationBuilder.add_fallback` (lines 29-30). -/
def ConversationBuilder.add_fallback (b : ConversationBuilder)
    (handler : HandlerRef) : ConversationBuilder × Option HandlerRef :=
  ({ b with fallbacks := b.fallbacks ++ [handler] }, none)

/-- Embedding of `ConversationBuilder.build` (lines 32-44): passes every
accumulated field into the `ConversationHandler` unchanged. -/
def ConversationBuilder.build (b : ConversationBuilder) :
    ConversationHandlerSpec :=
  { entry_points := b.entry_points
    states := b.states
    fallbacks := b.fallbacks
    per_user := b.per_user
    per_chat := b.per_chat
    per_message := b.per_message
    allow_reentry := b.allow_reentry
    name := b.name
    persistent := b.persistent
    map_to_parent := b.map_to_parent }

/-- Count of acknowledgement (`callback_query.answer`) effects in a trace. -/
def countAnswers (tr : List Effect) : Nat :=
  tr.countP (fun e => e = Effect.answerCallback)

theorem dictGet_insert_self {α β : Type} [DecidableEq α]
    (d : List (α × β)) (k : α) (v : β) :
    dictGet (dictInsert d k v) k = some v := by
  induction d with
  | nil => simp [dictInsert, dictGet]
  | cons p rest ih =>
    rcases p with ⟨k1, v1⟩
    by_cases h : k1 = k
    · simp [dictInsert, dictGet, h]
    · simp [dictInsert, dictGet, h, ih]

theorem dictGet_insert_ne {α β : Type} [DecidableEq α]
    (d : List (α × β)) (k k' : α) (v : β) (h : k' ≠ k) :
    dictGet (dictInsert d k v) k' = dictGet d k' := by
  induction d with
  | nil => simp [dictInsert, dictGet, Ne.symm h]
  | cons p rest ih =>
    rcases p with ⟨k1, v1⟩
    by_cases h1 : k1 = k
    · subst h1
      simp [dictInsert, dictGet, Ne.symm h]
    · by_cases h2 : k1 = k'
      · simp [dictInsert, dictGet, h1, h2, h]
      · simp [dictInsert, dictGet, h1, h2, h, ih]

/-- Sample update used by witnesses and counterexamples. -/
def u0 : Update := ⟨1, 2, 3, 4⟩

/-- Sample context used by witnesses and counterexamples: nonempty user
cache, an active conversation slot, no captured error. -/
def c0 : ApplicationContext := ⟨⟨[(1, 5)], 9⟩, ⟨some 7, 9⟩, ⟨9⟩, none⟩

/-- Environment in which every outbound call succeeds. -/
def envAll : Env := ⟨true, true, true⟩

/-- Environment in which `send_message` fails and the other calls succeed. -/
def envNoSend : Env := ⟨false, true, true⟩

/-- Handler behaviour that returns `7` with no effects, context untouched. -/
def hOk : Handler := fun _ context => (.ok (.intVal 7), [], context)

/-- Handler behaviour that raises, no effects, context untouched. -/
def hRaise : Handler := fun _ context => (.error (.other 0), [], context)

/-- Callback-query handler behaviour that returns `7` with no effects. -/
def cbOk : CbHandler := fun _ context _ => (.ok (.intVal 7), [], context)

/-- Callback-query handler behaviour that raises. -/
def cbRaise : CbHandler := fun _ context _ => (.error (.other 0), [], context)

/-- Handler behaviour with a visible effect, used to probe invocation. -/
def hProbe : Handler := fun _ context =>
  (.ok (.intVal 7), [.answerCallback], context)

/-- Claim C3: for all outcomes of the wrapped handler and of the delete
call, `delete_message_after` yields exactly the wrapped handler's outcome
(value or raised error) and final context; in particular a delete failure
never propagates to the caller. -/
theorem delete_message_after_result (f : Handler) (env : Env)
    (u : Update) (c : ApplicationContext) :
    (delete_message_after f env u c).1 = (f u c).1 ∧
    (delete_message_after f env u c).2.2 = (f u c).2.2 := by
  unfold delete_message_after
  rcases hf : f u c with ⟨r, tr, c2⟩
  cases r with
  | error e => simp
  | ok v =>
    unfold Bot.delete_message
    cases hd : env.deleteOk <;> simp [hd]

/-- Claim C4: when the effective user's id is not in `admin_ids`, the
`admin_command` wrapper returns `None` with no effects and the context
unchanged, independently of the wrapped handler (so the handler is not
invoked); when the id is in the set, it returns exactly the wrapped
handler's result. -/
theorem admin_command_gate (admin_ids : List Int) (f : Handler)
    (u : Update) (c : ApplicationContext) :
    (admin_ids.contains u.effective_user_id = false →
      admin_command admin_ids f u c = (.ok .none, [], c) ∧
      ∀ g : Handler,
        admin_command admin_ids g u c = admin_command admin_ids f u c) ∧
    (admin_ids.contains u.effective_user_id = true →
      admin_command admin_ids f u c = f u c) := by
  constructor
  · intro h
    have h2 : u.effective_user_id ∉ admin_ids := by simpa using h
    exact ⟨by simp [admin_command, h2], fun g => by simp [admin_command, h2]⟩
  · intro h
    have h2 : u.effective_user_id ∈ admin_ids := by simpa using h
    simp [admin_command, h2]

/-- Witness for C4 at concrete inputs: user `1` is dropped by the gate
`[5]` and passed through by the gate `[1]`. -/
theorem admin_command_gate_witness :
    admin_command [5] hProbe u0 c0 = (.ok .none, [], c0) ∧
    admin_command [1] hProbe u0 c0 = hProbe u0 c0 := by
  constructor
  · exact ((admin_command_gate [5] hProbe u0 c0).1 (by decide)).1
  · exact (admin_command_gate [1] hProbe u0 c0).2 (by decide)

/-- Claim C6: adding the same state twice leaves the mapping passed to
`build()` at the handler supplied last, while every distinct state's
mapping is untouched. -/
theorem add_state_last_write_wins (b : ConversationBuilder)
    (s : StateId) (h1 h2 : HandlerRef) :
    dictGet (((b.add_state s h1).1.add_state s h2).1.build).states s
      = some h2 ∧
    ∀ s', s' ≠ s →
      dictGet (((b.add_state s h1).1.add_state s h2).1.build).states s'
        = dictGet b.states s' := by
  constructor
  · simp [ConversationBuilder.add_state, ConversationBuilder.build,
      dictGet_insert_self]
  · intro s' hs
    simp [ConversationBuilder.add_state, ConversationBuilder.build,
      dictGet_insert_ne _ _ _ _ hs]

/-- Builder with one pre-existing state, used by the C6 witness. -/
def b0 : ConversationBuilder := { states := [(2, 30)] }

/-- Witness for C6 at concrete inputs: state `1` added with handler `10`
then `20` maps to `20` after `build()`, and the distinct state `2` keeps
its handler `30`. -/
theorem add_state_last_write_wins_witness :
    dictGet (((b0.add_state 1 10).1.add_state 1 20).1.build).states 1
      = some 20 ∧
    dictGet (((b0.add_state 1 10).1.add_state 1 20).1.build).states 2
      = some 30 := by
  constructor
  · exact (add_state_last_write_wins b0 1 10 20).1
  · exact ((add_state_last_write_wins b0 1 10 20).2 2 (by decide)).trans rfl

/-- Claim C7: the builder's scoping defaults are `per_user = true`,
`per_chat = true`, `per_message = false`, `allow_reentry = false`, and
`build()` passes the four scoping flags, entry points, state mapping and
fallbacks into the produced `ConversationHandler` unchanged. -/
theorem builder_defaults_and_build (b : ConversationBuilder) :
    ({} : ConversationBuilder).per_user = true ∧
    ({} : ConversationBuilder).per_chat = true ∧
    ({} : ConversationBuilder).per_message = false ∧
    ({} : ConversationBuilder).allow_reentry = false ∧
    b.build.per_user = b.per_user ∧
    b.build.per_chat = b.per_chat ∧
    b.build.per_message = b.per_message ∧
    b.build.allow_reentry = b.allow_reentry ∧
    b.build.entry_points = b.entry_points ∧
    b.build.states = b.states ∧
    b.build.fallbacks = b.fallbacks := by
  simp [ConversationBuilder.build]

/-- Claim C8: `clear_cache` empties the `users` store of the process-wide
data and changes nothing else in the context. -/
theorem clear_cache_frame (c : ApplicationContext) :
    (clear_cache c).1.bot_data.users = [] ∧
    (clear_cache c).1.bot_data.otherBotData = c.bot_data.otherBotData ∧
    (clear_cache c).1.chat_data = c.chat_data ∧
    (clear_cache c).1.user_data = c.user_data ∧
    (clear_cache c).1.error = c.error := by
  simp [clear_cache]

/-- Claim C10: the decorator returned by `add_state` evaluates to `None`
(so the decorated name is rebound to `None`) while the handler survives in
the builder's state mapping; `add_entry_point` and `add_fallback` likewise
return `None`. -/
theorem add_state_decorator_value (b : ConversationBuilder)
    (s : StateId) (h : HandlerRef) :
    (b.add_state s h).2 = none ∧
    dictGet (b.add_state s h).1.states s = some h ∧
    (b.add_entry_point h).2 = none ∧
    (b.add_fallback h).2 = none := by
  refine ⟨rfl, ?_, rfl, rfl⟩
  simp [ConversationBuilder.add_state, dictGet_insert_self]

/-- Counterexample to claim C1 as stated: with `answer_query_after = true`
and a wrapped handler that raises, zero acknowledgement calls occur (not
exactly one) even though every outbound call would succeed; the handler's
exception propagates instead. -/
theorem inject_callback_query_claim_ce :
    countAnswers (inject_callback_query true cbRaise envAll u0 c0).2.1 = 0 ∧
    (inject_callback_query true cbRaise envAll u0 c0).1
      = .error (.other 0) := by
  exact ⟨rfl, rfl⟩

/-- Claim C1 (amended): with `answer_query_after = true`, if the wrapped
handler returns normally and the acknowledgement call succeeds, exactly one
acknowledgement is appended after the handler's own effects; if the wrapped
handler raises, no acknowledgement occurs and the exception propagates
unchanged.  With `answer_query_after = false`, the wrapper returns the
handler's outcome unchanged, so zero acknowledgement calls are added. -/
theorem inject_callback_query_contract (f : CbHandler) (env : Env)
    (u : Update) (c : ApplicationContext) :
    (∀ v tr c2, f u c u.callback_query_data = (.ok v, tr, c2) →
      env.answerOk = true →
      inject_callback_query true f env u c
        = (.ok v, tr ++ [.answerCallback], c2)) ∧
    (∀ e tr c2, f u c u.callback_query_data = (.error e, tr, c2) →
      inject_callback_query true f env u c = (.error e, tr, c2)) ∧
    inject_callback_query false f env u c = f u c u.callback_query_data := by
  refine ⟨?_, ?_, ?_⟩
  · intro v tr c2 hf ha
    simp [inject_callback_query, hf, Bot.answer, ha]
  · intro e tr c2 hf
    simp [inject_callback_query, hf]
  · unfold inject_callback_query
    rcases hf : f u c u.callback_query_data with ⟨r, tr, c2⟩
    cases r <;> simp [hf]

/-- Witness for the amended C1 at concrete inputs: a normally returning
handler yields exactly one trailing acknowledgement; a raising handler
yields its own error and no acknowledgement. -/
theorem inject_callback_query_contract_witness :
    inject_callback_query true cbOk envAll u0 c0
      = (.ok (.intVal 7), [] ++ [.answerCallback], c0) ∧
    inject_callback_query true cbRaise envAll u0 c0
      = (.error (.other 0), [], c0) := by
  constructor
  · exact (inject_callback_query_contract cbOk envAll u0 c0).1
      (.intVal 7) [] c0 rfl rfl
  · exact (inject_callback_query_contract cbRaise envAll u0 c0).2.1
      (.other 0) [] c0 rfl

/-- Counterexample to claim C2 as stated: when the wrapped handler raises
and the apology send itself fails, the wrapper sends no apology (empty
trace), leaves the conversation slot at its prior value `some 7`, and
raises instead of returning the end-conversation signal. -/
theorem exit_conversation_claim_ce :
    (exit_conversation_on_exception default_user_message hRaise envNoSend
        u0 c0).1 = .error .botError ∧
    (exit_conversation_on_exception default_user_message hRaise envNoSend
        u0 c0).2.1 = [] ∧
    (exit_conversation_on_exception default_user_message hRaise envNoSend
        u0 c0).2.2.chat_data.conversation_data = some 7 := by
  exact ⟨rfl, rfl, rfl⟩

/-- Claim C2 (amended): on a normal handler return the wrapper passes the
result and context through unchanged (conversation slot untouched); on any
handler exception, provided the apology send succeeds, the wrapper sends
exactly one fixed apology message, sets the chat-scoped `conversation_data`
slot to `None`, and returns `ConversationHandler.END`. -/
theorem exit_conversation_contract (msg : String) (f : Handler) (env : Env)
    (u : Update) (c : ApplicationContext) :
    (∀ v tr c2, f u c = (.ok v, tr, c2) →
      exit_conversation_on_exception msg f env u c = (.ok v, tr, c2)) ∧
    (∀ e tr c2, f u c = (.error e, tr, c2) → env.sendOk = true →
      exit_conversation_on_exception msg f env u c
        = (.ok ConversationHandlerEND,
           tr ++ [.sendMessage u.effective_chat_id msg],
           { c2 with chat_data :=
              { c2.chat_data with conversation_data := none } })) := by
  constructor
  · intro v tr c2 hf
    simp [exit_conversation_on_exception, hf]
  · intro e tr c2 hf hs
    simp [exit_conversation_on_exception, hf, Bot.send_message, hs]

/-- Witness for the amended C2 at concrete inputs: pass-through on success;
apology, cleared slot and END on a handler exception with the send
succeeding. -/
theorem exit_conversation_contract_witness :
    exit_conversation_on_exception default_user_message hOk envAll u0 c0
      = (.ok (.intVal 7), [], c0) ∧
    exit_conversation_on_exception default_user_message hRaise envAll u0 c0
      = (.ok ConversationHandlerEND,
         [] ++ [.sendMessage u0.effective_chat_id default_user_message],
         { c0 with chat_data :=
            { c0.chat_data with conversation_data := none } }) := by
  constructor
  · exact (exit_conversation_contract default_user_message hOk envAll
      u0 c0).1 (.intVal 7) [] c0 rfl
  · exact (exit_conversation_contract default_user_message hRaise envAll
      u0 c0).2 (.other 0) [] c0 rfl rfl

/-- Claim C9: when the wrapped handler raises and the apology send itself
raises, `exit_conversation_on_exception` propagates the send failure, the
conversation slot keeps whatever value the handler left, and the
end-conversation signal is not returned. -/
theorem exit_conversation_send_failure (msg : String) (f : Handler)
    (env : Env) (u : Update) (c : ApplicationContext) :
    ∀ e tr c2, f u c = (.error e, tr, c2) → env.sendOk = false →
      exit_conversation_on_exception msg f env u c
        = (.error .botError, tr, c2) ∧
      (exit_conversation_on_exception msg f env u c).2.2.chat_data.conversation_data
        = c2.chat_data.conversation_data ∧
      (exit_conversation_on_exception msg f env u c).1
        ≠ .ok ConversationHandlerEND := by
  intro e tr c2 hf hs
  have hmain : exit_conversation_on_exception msg f env u c
      = (.error .botError, tr, c2) := by
    simp [exit_conversation_on_exception, hf, Bot.send_message, hs]
  refine ⟨hmain, by rw [hmain], by rw [hmain]; simp⟩

/-- Witness for C9 at concrete inputs: raising handler plus failing send
propagate the send failure with the slot left at `some 7`. -/
theorem exit_conversation_send_failure_witness :
    exit_conversation_on_exception default_user_message hRaise envNoSend
      u0 c0 = (.error .botError, [], c0) := by
  exact (exit_conversation_send_failure default_user_message hRaise
    envNoSend u0 c0 (.other 0) [] c0 rfl rfl).1

/-- Context carrying a captured `UserNotRegistered` error. -/
def cUNR : ApplicationContext := { c0 with error := some .userNotRegistered }

/-- Counterexample to claim C5 as stated: with a captured
`UserNotRegistered` error and a failing outbound send, `handle_error`
raises a further error instead of never raising. -/
theorem handle_error_claim_ce :
    (handle_error envNoSend u0 cUNR).1 = .error .botError := by
  exact rfl

/-- Claim C5 (amended): with no captured error, `handle_error` is a no-op;
with a captured `UserNotRegistered` error, provided the outbound send
succeeds, it sends exactly the one registration message and emits no log;
with any other captured error it emits exactly one log record and sends no
message; it performs no raise of its own — the only error it can raise is a
propagated failure of the registration-message send. -/
theorem handle_error_dispatch (env : Env) (u : Update)
    (c : ApplicationContext) :
    (c.error = none → handle_error env u c = (.ok .none, [])) ∧
    (c.error = some .userNotRegistered → env.sendOk = true →
      handle_error env u c
        = (.ok .none, [.sendMessage u.effective_chat_id registration_message])) ∧
    (∀ e, c.error = some e → e ≠ .userNotRegistered →
      handle_error env u c = (.ok .none, [.logError e])) := by
  refine ⟨?_, ?_, ?_⟩
  · intro h
    simp [handle_error, h]
  · intro h hs
    simp [handle_error, h, Bot.send_message, hs]
  · intro e h hne
    cases e with
    | userNotRegistered => exact absurd rfl hne
    | botError => simp [handle_error, h]
    | other n => simp [handle_error, h]

/-- Witness for the amended C5 at concrete inputs: no-op without an error,
one registration message for `UserNotRegistered` with the send succeeding,
one log record for an unclassified error. -/
theorem handle_error_dispatch_witness :
    handle_error envAll u0 c0 = (.ok .none, []) ∧
    handle_error envAll u0 cUNR
      = (.ok .none, [.sendMessage u0.effective_chat_id registration_message]) ∧
    handle_error envAll u0 { c0 with error := some (.other 3) }
      = (.ok .none, [.logError (.other 3)]) := by
  refine ⟨?_, ?_, ?_⟩
  · exact (handle_error_dispatch envAll u0 c0).1 rfl
  · exact (handle_error_dispatch envAll u0 cUNR).2.1 rfl rfl
  · exact (handle_error_dispatch envAll u0
      { c0 with error := some (.other 3) }).2.2 (.other 3) rfl (by decide)
